import Mathlib

/-!
Verification of the crypto-signal pipeline in `run.py`.

The script is a single-shot batch job:
  `load_config` validates a YAML run configuration,
  `load_data` loads a CSV and enforces the `close`-column schema,
  `generate_signals` computes a binary signal from `close` against its
  rolling mean, and `main` orchestrates the run and reports metrics.

Shallow embedding conventions:
  * YAML / Python scalar values are modelled by `PyValue`; in Python the test
    `isinstance(x, int)` is true for `bool` (a subclass of `int`), which
    `isInstInt` reproduces.
  * Numeric cells are exact rationals; a missing / NaN cell is `none`.
    The Python builtin `round(x, 4)` (round-half-even) is modelled exactly on
    rationals by `round4`; binary-float representation error is elided.
  * Filesystem and parser outcomes are explicit inputs (`ConfigFile`,
    `DataFile`, write-failure fields of `Env`), so `main` is a pure
    function of an environment.
  * Log lines keep the message heads of the code; interpolated runtime values
    are elided, except where a claim depends on them.
-/

namespace Pipeline

/-- Python values as produced by `yaml.safe_load` (scalars, sequences,
mappings). -/
inductive PyValue where
  | pyNone
  | pyBool (b : Bool)
  | pyInt (i : ℤ)
  | pyFloat (q : ℚ)
  | pyStr (s : String)
  | pyList (l : List PyValue)
  | pyDict (d : List (String × PyValue))

/-- Python `isinstance(v, int)`: true for `int` and for `bool`, since
`bool` is a subclass of `int`. -/
def isInstInt : PyValue → Bool
  | .pyBool _ => true
  | .pyInt _ => true
  | _ => false

/-- Python `isinstance(v, str)`. -/
def isInstStr : PyValue → Bool
  | .pyStr _ => true
  | _ => false

/-- The integer a Python `int`-instance stands for (`True` is `1`,
`False` is `0`). Other values never reach this conversion. -/
def pyIntVal : PyValue → ℤ
  | .pyBool b => if b then 1 else 0
  | .pyInt i => i
  | _ => 0

/-- Python truthiness test `not version` for the values that pass
`isinstance(version, str)`: only the empty string is falsy. -/
def pyStrEmpty : PyValue → Bool
  | .pyStr s => s = ""
  | _ => false

/-- Membership of a key in a parsed YAML mapping. -/
def hasKey (d : List (String × PyValue)) (k : String) : Bool :=
  d.any (fun p => p.1 = k)

/-- Indexing `cfg[k]` on a parsed YAML mapping (used only when the key is
present). -/
def lookupKey (d : List (String × PyValue)) (k : String) : PyValue :=
  match d.find? (fun p => p.1 = k) with
  | some p => p.2
  | none => .pyNone

/-- The required config keys, already in Python `sorted` order
(`"seed" < "version" < "window"`). -/
def requiredKeys : List String := ["seed", "version", "window"]

/-- Python `sorted(required_keys - set(cfg.keys()))`: filtering the
sorted required-key list keeps the result sorted. -/
def missingKeys (d : List (String × PyValue)) : List String :=
  requiredKeys.filter (fun k => !hasKey d k)

/-- Python `repr` of a list of strings, as interpolated into the
missing-keys error message. -/
def renderKeyList (l : List String) : String :=
  "[" ++ String.intercalate ", " (l.map (fun s => "\x27" ++ s ++ "\x27")) ++ "]"

/-- What the filesystem and YAML parser yield for the config path:
whether the file exists, and the parse outcome (`.error` is a
`yaml.YAMLError` with its message). -/
structure ConfigFile where
  onDisk : Bool
  parsed : Except String PyValue

/-- The validated configuration returned by `load_config`: the raw
values stored under the three keys (the code returns them unconverted,
so a `bool` seed stays a `bool`). -/
structure Config where
  seed : PyValue
  window : PyValue
  version : PyValue

/-- Function `load_config` from `run.py`: existence check, YAML parse, top-level
mapping check, missing-keys check, then per-field checks in the order
seed, window, version; the first failing check raises. -/
def load_config (config_path : String) (file : ConfigFile) : Except String Config :=
  if !file.onDisk then
    .error ("Config file not found: " ++ config_path)
  else
    match file.parsed with
    | .error exc => .error ("Invalid YAML config format: " ++ exc)
    | .ok cfg =>
      match cfg with
      | .pyDict d =>
        if !(missingKeys d).isEmpty then
          .error ("Invalid configuration file structure: missing keys " ++
            renderKeyList (missingKeys d))
        else
          let seed := lookupKey d "seed"
          let window := lookupKey d "window"
          let version := lookupKey d "version"
          if !isInstInt seed then
            .error "Invalid configuration file structure: \x27seed\x27 must be an integer."
          else if !isInstInt window || pyIntVal window ≤ 0 then
            .error "Invalid configuration file structure: \x27window\x27 must be a positive integer."
          else if !isInstStr version || pyStrEmpty version then
            .error "Invalid configuration file structure: \x27version\x27 must be a non-empty string."
          else
            .ok { seed := seed, window := window, version := version }
      | _ => .error "Invalid configuration file structure: expected a YAML mapping."

/-- A loaded dataframe: the column names, the `close` column as exact
rationals with missing/NaN cells as `none`, and the row count
(`len(df)`; for a real pandas frame with a `close` column,
`close.length = nrows`). -/
structure DataFrame where
  columns : List String
  close : List (Option ℚ)
  nrows : ℕ

/-- What `pd.read_csv` yields on the input path: the dedicated
`EmptyDataError` (file with no content), a `ParserError` or any other
exception (both with their message), or a parsed frame. -/
inductive ParsedCSV where
  | emptyData
  | parserError (msg : String)
  | otherError (msg : String)
  | ok (df : DataFrame)

/-- Filesystem plus parser outcome for the input path. -/
structure DataFile where
  onDisk : Bool
  parsed : ParsedCSV

/-- Function `load_data` from `run.py`: existence check, parse attempt (the
`EmptyDataError` and `ParserError` handlers give distinct messages),
zero-row check, then `close`-column schema check. -/
def load_data (input_path : String) (file : DataFile) : Except String DataFrame :=
  if !file.onDisk then
    .error ("Input file not found: " ++ input_path)
  else
    match file.parsed with
    | .emptyData => .error "Empty input file."
    | .parserError msg => .error ("Invalid CSV file format: " ++ msg)
    | .otherError msg => .error ("Invalid CSV file format: " ++ msg)
    | .ok df =>
      if df.nrows = 0 then
        .error "Empty input file."
      else if !df.columns.contains "close" then
        .error "Missing required columns in dataset: [\x27close\x27]"
      else
        .ok df

/-- The series `df["close"].rolling(window=window, min_periods=window).mean()` at
position `i`: NaN (`none`) while fewer than `window` observations end at
`i`, NaN if any cell of the window `[i - window + 1, i]` is NaN
(`min_periods = window` requires all of them), else their arithmetic
mean. -/
def rollingMean (close : List (Option ℚ)) (window : ℕ) (i : ℕ) : Option ℚ :=
  if i + 1 < window then none
  else
    let cells := (List.range window).map (fun j => close.getD (i + 1 - window + j) none)
    if cells.all Option.isSome then
      some ((cells.filterMap id).sum / (window : ℚ))
    else
      none

/-- Pandas elementwise `>` between a value column and a computed column:
any comparison involving NaN is `False`. -/
def gtOpt : Option ℚ → Option ℚ → Bool
  | some a, some b => b < a
  | _, _ => false

/-- Function `generate_signals` from `run.py`:
`(df["close"] > rolling_mean).astype(int)` — a 0/1 series of the same
length as the frame; positions where the rolling mean (or `close`) is
NaN compare as `False` and become `0`. -/
def generate_signals (close : List (Option ℚ)) (window : ℕ) : List ℕ :=
  (List.range close.length).map
    (fun i => if gtOpt (close.getD i none) (rollingMean close window i) then 1 else 0)

/-- Round-half-even of a rational to an integer, the behaviour of
the `round` builtin of Python. -/
def roundHalfEven (q : ℚ) : ℤ :=
  if q - ⌊q⌋ < 1 / 2 then ⌊q⌋
  else if 1 / 2 < q - ⌊q⌋ then ⌊q⌋ + 1
  else if ⌊q⌋ % 2 = 0 then ⌊q⌋ else ⌊q⌋ + 1

/-- Python `round(x, 4)` on exact rationals. -/
def round4 (q : ℚ) : ℚ :=
  (roundHalfEven (q * 10000) : ℚ) / 10000

/-- Computation `signal.mean()`: the arithmetic mean of the full series (pandas
divides by the series length, not by a count of defined positions;
the series from `generate_signals` has no NaN left in it). -/
def seriesMean (signal : List ℕ) : ℚ :=
  (signal.sum : ℚ) / (signal.length : ℚ)

/-- The structured run report: the success shape
`{version, rows_processed, metric: "signal_rate", value, latency_ms,
seed, status: "success"}` or the failure shape
`{version, status: "error", error_message}`. -/
inductive Report where
  | success (version : PyValue) (rows_processed : ℕ) (value : ℚ)
      (seed : PyValue) (latency_ms : ℕ)
  | failure (version : PyValue) (error_message : String)

/-- Call `np.random.seed(s)` accepts exactly the integers in `[0, 2^32)`;
anything else raises `ValueError`. -/
def npSeedOk (seed : ℤ) : Bool :=
  0 ≤ seed && seed < 2 ^ 32

/-- The message of the `ValueError` raised by `np.random.seed` on an
out-of-range seed. -/
def npSeedErrMsg : String := "Seed must be between 0 and 2**32 - 1"

/-- Everything outside the process that `main` depends on: the CLI
paths, what the filesystem/parsers yield at each path, whether each
`write_json` call raises (`some msg` is the message of the raised exception),
and the measured wall-clock latency. -/
structure Env where
  configPath : String
  inputPath : String
  cfile : ConfigFile
  dfile : DataFile
  successWriteError : Option String
  errorWriteError : Option String
  latencyMs : ℕ

/-- The observable outcome of one run: the process exit status, the
report left at the output path (`none` when no write succeeded), the
report printed to stdout, and the log lines. -/
structure MainResult where
  exitCode : ℕ
  written : Option Report
  printed : Report
  logs : List String

/-- The `except` block of `main`: log the error, assemble the failure
payload with the best-known version, attempt to write it (a failure of
that write is itself logged but changes nothing else), print it, and
return exit status 1. -/
def reportFailure (env : Env) (version : PyValue) (msg : String)
    (logs : List String) : MainResult :=
  let payload := Report.failure version msg
  match env.errorWriteError with
  | none =>
    { exitCode := 1, written := some payload, printed := payload,
      logs := logs ++ ["Error encountered: " ++ msg] }
  | some w =>
    { exitCode := 1, written := none, printed := payload,
      logs := logs ++ ["Error encountered: " ++ msg,
        "Failed to write error output JSON: " ++ w] }

/-- Function `main` from `run.py`: config validation, `np.random.seed`, data
loading, signal generation, metrics assembly and the success write, with
every raised exception routed to `reportFailure`. `version_for_error`
starts as `"v1"` and is updated right after the config loads, before
the seed call. -/
def main (env : Env) : MainResult :=
  let logs0 := ["Job started"]
  match load_config env.configPath env.cfile with
  | .error msg => reportFailure env (.pyStr "v1") msg logs0
  | .ok cfg =>
    if !npSeedOk (pyIntVal cfg.seed) then
      reportFailure env cfg.version npSeedErrMsg logs0
    else
      let logs1 := logs0 ++ ["Config loaded", "Configuration verified"]
      match load_data env.inputPath env.dfile with
      | .error msg => reportFailure env cfg.version msg logs1
      | .ok df =>
        let rows_processed := df.nrows
        let logs2 := logs1 ++ ["Data loaded"]
        let signal := generate_signals df.close (pyIntVal cfg.window).toNat
        let logs3 := logs2 ++ ["Rolling mean calculated", "Signals generated"]
        let signal_rate := seriesMean signal
        let metrics := Report.success cfg.version rows_processed
          (round4 signal_rate) cfg.seed env.latencyMs
        match env.successWriteError with
        | none =>
          { exitCode := 0, written := some metrics, printed := metrics,
            logs := logs3 ++ ["Metrics", "Job completed successfully"] }
        | some w => reportFailure env cfg.version w logs3

/-- The `value` field of the report left at the output path, when that
report is a success report. -/
def reportValue (r : MainResult) : Option ℚ :=
  match r.written with
  | some (.success _ _ v _ _) => some v
  | _ => none

/-! ### The specification-side signal rate (refinement comparison)

The spec describes `value` as the fraction of signal=1 rows over only
the *defined* positions: positions with `i < window - 1`, and positions
whose `close` value is missing, never enter the denominator. The
following two definitions follow the wording of the spec, to be compared
with what the code computes. -/

/-- The defined positions of the signal series, as the spec describes
them: full window history is available (`window - 1 ≤ i`), the cell
`close[i]` is present, and the whole window (hence the rolling mean) is
present. -/
def definedPos (close : List (Option ℚ)) (window : ℕ) : List ℕ :=
  (List.range close.length).filter
    (fun i => decide (window ≤ i + 1) && (close.getD i none).isSome &&
      (rollingMean close window i).isSome)

/-- The signal rate as the spec describes it: signal=1 positions over
defined positions only. -/
def signalRateSpec (close : List (Option ℚ)) (window : ℕ) : ℚ :=
  (((definedPos close window).filter
      (fun i => gtOpt (close.getD i none) (rollingMean close window i))).length : ℚ)
    / ((definedPos close window).length : ℚ)

/-! ### The ordered validation rules of `load_config` and `load_data` -/

/-- The validation rules of `load_config`, one per raise site. -/
inductive CfgRule where
  | existence
  | parseability
  | topType
  | missingK
  | seedType
  | windowType
  | versionType
deriving DecidableEq

/-- Whether a config-validation rule is violated by the given file,
each rule judged in isolation. -/
def cfgRuleViolated (file : ConfigFile) : CfgRule → Bool
  | .existence => !file.onDisk
  | .parseability =>
    match file.parsed with
    | .error _ => true
    | .ok _ => false
  | .topType =>
    match file.parsed with
    | .ok (.pyDict _) => false
    | .ok _ => true
    | .error _ => false
  | .missingK =>
    match file.parsed with
    | .ok (.pyDict d) => !(missingKeys d).isEmpty
    | _ => false
  | .seedType =>
    match file.parsed with
    | .ok (.pyDict d) => hasKey d "seed" && !isInstInt (lookupKey d "seed")
    | _ => false
  | .windowType =>
    match file.parsed with
    | .ok (.pyDict d) => hasKey d "window" &&
        (!isInstInt (lookupKey d "window") ||
          decide (pyIntVal (lookupKey d "window") ≤ 0))
    | _ => false
  | .versionType =>
    match file.parsed with
    | .ok (.pyDict d) => hasKey d "version" &&
        (!isInstStr (lookupKey d "version") || pyStrEmpty (lookupKey d "version"))
    | _ => false

/-- The fixed order in which `load_config` checks its rules: existence,
parseability, top-level mapping type, missing keys, then the field types
of seed, window, version. -/
def cfgRuleOrder : List CfgRule :=
  [.existence, .parseability, .topType, .missingK, .seedType, .windowType, .versionType]

/-- The first config rule, in check order, that the file violates. -/
def firstCfgViolation (file : ConfigFile) : Option CfgRule :=
  cfgRuleOrder.find? (cfgRuleViolated file)

/-- The error message each config rule raises (matching the messages in
`load_config`). -/
def cfgRuleMsg (config_path : String) (file : ConfigFile) : CfgRule → String
  | .existence => "Config file not found: " ++ config_path
  | .parseability =>
    match file.parsed with
    | .error exc => "Invalid YAML config format: " ++ exc
    | .ok _ => ""
  | .topType => "Invalid configuration file structure: expected a YAML mapping."
  | .missingK =>
    match file.parsed with
    | .ok (.pyDict d) =>
      "Invalid configuration file structure: missing keys " ++
        renderKeyList (missingKeys d)
    | _ => ""
  | .seedType => "Invalid configuration file structure: \x27seed\x27 must be an integer."
  | .windowType => "Invalid configuration file structure: \x27window\x27 must be a positive integer."
  | .versionType => "Invalid configuration file structure: \x27version\x27 must be a non-empty string."

/-- The failure conditions of `load_data`, one per raise site (the two
parser exception handlers with a parse-failure message are one
condition). -/
inductive DataRule where
  | existence
  | parseFailure
  | emptiness
  | schema
deriving DecidableEq

/-- Whether a data-loading failure condition holds for the given file,
each judged in isolation. `emptiness` covers both the no-content file
(`EmptyDataError`) and a parsed table with zero rows. -/
def dataRuleViolated (file : DataFile) : DataRule → Bool
  | .existence => !file.onDisk
  | .parseFailure =>
    match file.parsed with
    | .parserError _ => true
    | .otherError _ => true
    | _ => false
  | .emptiness =>
    match file.parsed with
    | .emptyData => true
    | .ok df => df.nrows = 0
    | _ => false
  | .schema =>
    match file.parsed with
    | .ok df => !df.columns.contains "close"
    | _ => false

/-- The fixed precedence of the `load_data` failure conditions:
existence, parse failure, emptiness, schema. -/
def dataRuleOrder : List DataRule :=
  [.existence, .parseFailure, .emptiness, .schema]

/-- The first data failure condition, in precedence order, that the
file meets. -/
def firstDataViolation (file : DataFile) : Option DataRule :=
  dataRuleOrder.find? (dataRuleViolated file)

/-- The error message of each data failure condition (matching the
messages in `load_data`). -/
def dataRuleMsg (input_path : String) (file : DataFile) : DataRule → String
  | .existence => "Input file not found: " ++ input_path
  | .parseFailure =>
    match file.parsed with
    | .parserError msg => "Invalid CSV file format: " ++ msg
    | .otherError msg => "Invalid CSV file format: " ++ msg
    | _ => ""
  | .emptiness => "Empty input file."
  | .schema => "Missing required columns in dataset: [\x27close\x27]"

/-! ### Concrete fixtures used by counterexamples and witnesses -/

/-- The `close` column of the scenario in the spec:
`[1, 2, 3, 10, 1, 1]`. -/
def close0 : List (Option ℚ) := [some 1, some 2, some 3, some 10, some 1, some 1]

/-- The scenario dataframe: six rows, a single `close` column. -/
def df0 : DataFrame := ⟨["close"], close0, 6⟩

/-- The scenario environment: config `{seed: 42, window: 3, version:
"v1"}`, the scenario data, all writes succeed. -/
def env0 : Env :=
  { configPath := "config.yaml", inputPath := "data.csv"
    cfile := ⟨true, .ok (.pyDict
      [("seed", .pyInt 42), ("window", .pyInt 3), ("version", .pyStr "v1")])⟩
    dfile := ⟨true, .ok df0⟩
    successWriteError := none, errorWriteError := none, latencyMs := 0 }

/-- The validated scenario configuration. -/
def cfg0 : Config := ⟨.pyInt 42, .pyInt 3, .pyStr "v1"⟩

/-- A config mapping with only `seed`, so `version` and `window` are
missing. -/
def dMissing : List (String × PyValue) := [("seed", .pyInt 1)]

/-- A config file whose `seed` and `window` are the boolean `true`. -/
def cfgBoolFile : ConfigFile :=
  ⟨true, .ok (.pyDict
    [("seed", .pyBool true), ("window", .pyBool true), ("version", .pyStr "v1")])⟩

/-- An environment whose config file is absent and whose failure-report
write raises. -/
def envNoConfig : Env :=
  { configPath := "missing.yaml", inputPath := "data.csv"
    cfile := ⟨false, .ok .pyNone⟩
    dfile := ⟨true, .ok df0⟩
    successWriteError := none, errorWriteError := some "disk full", latencyMs := 0 }

/-- A one-row dataframe, for the larger-window run. -/
def df1 : DataFrame := ⟨["close"], [some 5], 1⟩

/-- An environment with one data row and window 9 (window larger than
the row count). -/
def envBigWindow : Env :=
  { configPath := "config.yaml", inputPath := "data.csv"
    cfile := ⟨true, .ok (.pyDict
      [("seed", .pyInt 7), ("window", .pyInt 9), ("version", .pyStr "v2")])⟩
    dfile := ⟨true, .ok df1⟩
    successWriteError := none, errorWriteError := none, latencyMs := 0 }

/-- The validated big-window configuration. -/
def cfgBig : Config := ⟨.pyInt 7, .pyInt 9, .pyStr "v2"⟩

/-- An input file on which the CSV parser raises a `ParserError`. -/
def dfileParseErr : DataFile := ⟨true, .parserError "Error tokenizing data"⟩

end Pipeline

/-! ## General lemmas about the signal series and rounding -/

namespace Pipeline

/-- The signal series has one entry per data row. -/
lemma generate_signals_length (close : List (Option ℚ)) (w : ℕ) :
    (generate_signals close w).length = close.length := by
  simp [generate_signals]

/-- Entry `i` of the signal series is the NaN-aware comparison of
`close[i]` against the rolling mean at `i`. -/
lemma generate_signals_getD (close : List (Option ℚ)) (w : ℕ) {i : ℕ}
    (hi : i < close.length) :
    (generate_signals close w).getD i 0 =
      if gtOpt (close.getD i none) (rollingMean close w i) then 1 else 0 := by
  unfold generate_signals
  rw [List.getD_eq_getElem?_getD, List.getElem?_map, List.getElem?_range hi]
  simp

/-- Before full window history exists, the comparison against the NaN
rolling mean yields `False`, hence signal `0`. -/
lemma generate_signals_getD_zero (close : List (Option ℚ)) (w : ℕ) {i : ℕ}
    (hlow : i + 1 < w) :
    (generate_signals close w).getD i 0 = 0 := by
  by_cases hi : i < close.length
  · rw [generate_signals_getD close w hi]
    have hrm : rollingMean close w i = none := by simp [rollingMean, hlow]
    rw [hrm]
    cases close.getD i none <;> simp [gtOpt]
  · exact List.getD_eq_default _ _
      (by simpa [generate_signals_length] using Nat.le_of_not_lt hi)

/-- Every signal entry is `0` or `1` (in particular at most `1`). -/
lemma generate_signals_le_one (close : List (Option ℚ)) (w : ℕ) :
    ∀ x ∈ generate_signals close w, x ≤ 1 := by
  intro x hx
  simp only [generate_signals, List.mem_map] at hx
  obtain ⟨i, -, rfl⟩ := hx
  split <;> simp

/-- A list of entries bounded by one sums to at most its length. -/
lemma sum_le_length : ∀ (l : List ℕ), (∀ x ∈ l, x ≤ 1) → l.sum ≤ l.length := by
  intro l
  induction l with
  | nil => simp
  | cons a t ih =>
    intro h
    have ha := h a (by simp)
    have ht := ih (fun x hx => h x (by simp [hx]))
    simp only [List.sum_cons, List.length_cons]
    omega

/-- For a 0/1 list, the sum is the number of ones. -/
lemma sum_eq_count_one : ∀ (l : List ℕ), (∀ x ∈ l, x ≤ 1) → l.sum = l.count 1 := by
  intro l
  induction l with
  | nil => simp
  | cons a t ih =>
    intro h
    have ha := h a (by simp)
    have ht := ih (fun x hx => h x (by simp [hx]))
    interval_cases a <;> (simp [List.count_cons, ht]; try omega)

/-- Round-half-even of a nonnegative rational is nonnegative. -/
lemma roundHalfEven_nonneg {q : ℚ} (h : 0 ≤ q) : 0 ≤ roundHalfEven q := by
  have h0 : (0 : ℤ) ≤ ⌊q⌋ := Int.floor_nonneg.mpr h
  unfold roundHalfEven
  split_ifs <;> omega

/-- Round-half-even never exceeds an integer upper bound of its
argument. -/
lemma roundHalfEven_le {q : ℚ} {B : ℤ} (h : q ≤ (B : ℚ)) : roundHalfEven q ≤ B := by
  rcases eq_or_lt_of_le h with heq | hlt
  · subst heq
    unfold roundHalfEven
    simp [Int.floor_intCast]
  · have hf : ⌊q⌋ < B := Int.floor_lt.mpr hlt
    unfold roundHalfEven
    split_ifs <;> omega

/-- Rounding to four decimals preserves nonnegativity. -/
lemma round4_nonneg {q : ℚ} (h : 0 ≤ q) : 0 ≤ round4 q := by
  unfold round4
  have := roundHalfEven_nonneg (q := q * 10000) (by positivity)
  positivity

/-- Rounding to four decimals preserves the upper bound one. -/
lemma round4_le_one {q : ℚ} (h : q ≤ 1) : round4 q ≤ 1 := by
  unfold round4
  have hb : q * 10000 ≤ ((10000 : ℤ) : ℚ) := by push_cast; linarith
  have := roundHalfEven_le hb
  rw [div_le_one (by norm_num)]
  exact_mod_cast this

/-- The series mean is nonnegative. -/
lemma seriesMean_nonneg (l : List ℕ) : 0 ≤ seriesMean l := by
  unfold seriesMean
  positivity

/-- The mean of a list of entries bounded by one is at most one. -/
lemma seriesMean_le_one (l : List ℕ) (h : ∀ x ∈ l, x ≤ 1) : seriesMean l ≤ 1 := by
  unfold seriesMean
  rcases Nat.eq_zero_or_pos l.length with h0 | hpos
  · simp [h0]
  · rw [div_le_one (by exact_mod_cast hpos)]
    exact_mod_cast sum_le_length l h

/-- Collapsing `filterMap id` over a list of explicit `some`s. -/
lemma filterMap_id_map_some {α β : Type} (l : List α) (g : α → β) :
    (l.map (fun a => some (g a))).filterMap id = l.map g := by
  induction l with
  | nil => rfl
  | cons a t ih => simp [ih]

/-- In an all-present column, every in-range cell is present. -/
lemma getD_isSome_of_all {close : List (Option ℚ)}
    (hall : close.all Option.isSome = true) {i : ℕ} (hi : i < close.length) :
    (close.getD i none).isSome = true := by
  rw [List.getD_eq_getElem?_getD, List.getElem?_eq_getElem hi]
  exact List.all_eq_true.mp hall _ (List.getElem_mem hi)

/-- A present cell equals `some` of its default-extraction. -/
lemma getD_eq_some_getD {o : Option ℚ} (h : o.isSome = true) :
    o = some (o.getD 0) := by
  cases o
  · exact absurd h (by simp)
  · rfl

/-- On an all-present column with full history at `i`, the rolling mean
is the arithmetic mean of the window `[i - window + 1, i]`. -/
lemma rollingMean_all_some (close : List (Option ℚ)) (w i : ℕ)
    (hall : close.all Option.isSome = true)
    (h1 : w ≤ i + 1) (h2 : i < close.length) :
    rollingMean close w i =
      some (((List.range w).map
        (fun j => (close.getD (i + 1 - w + j) none).getD 0)).sum / (w : ℚ)) := by
  have hidx : ∀ j < w, i + 1 - w + j < close.length := by
    intro j hj
    omega
  have hcells : (List.range w).map (fun j => close.getD (i + 1 - w + j) none) =
      (List.range w).map (fun j => some ((close.getD (i + 1 - w + j) none).getD 0)) := by
    apply List.map_congr_left
    intro j hj
    exact getD_eq_some_getD (getD_isSome_of_all hall (hidx j (List.mem_range.mp hj)))
  unfold rollingMean
  rw [if_neg (by omega)]
  simp only [hcells]
  rw [filterMap_id_map_some]
  rw [if_pos (by simp)]

end Pipeline

/-! ## Lemmas about the run orchestration -/

namespace Pipeline

/-- The success path of `main`, assembled from its stage results. -/
lemma main_success (env : Env) (cfg : Config) (df : DataFrame)
    (hc : load_config env.configPath env.cfile = .ok cfg)
    (hs : npSeedOk (pyIntVal cfg.seed) = true)
    (hd : load_data env.inputPath env.dfile = .ok df)
    (hw : env.successWriteError = none) :
    main env =
      { exitCode := 0
        written := some (.success cfg.version df.nrows
          (round4 (seriesMean (generate_signals df.close (pyIntVal cfg.window).toNat)))
          cfg.seed env.latencyMs)
        printed := .success cfg.version df.nrows
          (round4 (seriesMean (generate_signals df.close (pyIntVal cfg.window).toNat)))
          cfg.seed env.latencyMs
        logs := ["Job started", "Config loaded", "Configuration verified",
          "Data loaded", "Rolling mean calculated", "Signals generated",
          "Metrics", "Job completed successfully"] } := by
  unfold main
  simp only [hc, hd, hs, hw, Bool.not_true]
  rfl

/-- The failure handler always returns exit status one. -/
lemma reportFailure_exitCode (env : Env) (v : PyValue) (m : String) (lg : List String) :
    (reportFailure env v m lg).exitCode = 1 := by
  unfold reportFailure
  cases env.errorWriteError <;> rfl

/-- The failure handler never leaves a success report at the output
path. -/
lemma reportFailure_written (env : Env) (v : PyValue) (m : String) (lg : List String)
    (ver : PyValue) (r : ℕ) (val : ℚ) (s : PyValue) (lat : ℕ) :
    (reportFailure env v m lg).written ≠ some (.success ver r val s lat) := by
  unfold reportFailure
  cases env.errorWriteError <;> simp

/-- When the failure-report write itself raises, the handler logs that
secondary failure. -/
lemma reportFailure_log (env : Env) (v : PyValue) (m : String) (lg : List String)
    {w : String} (hw : env.errorWriteError = some w) :
    ("Failed to write error output JSON: " ++ w) ∈ (reportFailure env v m lg).logs := by
  unfold reportFailure
  rw [hw]
  simp

/-- Every run of `main` ends in the failure handler or in the success
record. -/
lemma main_shape (env : Env) :
    (∃ v m lg, main env = reportFailure env v m lg) ∨
    (∃ v r val s lat lg, main env =
      { exitCode := 0, written := some (.success v r val s lat),
        printed := .success v r val s lat, logs := lg }) := by
  unfold main
  rcases hc : load_config env.configPath env.cfile with m | cfg
  · simp only [hc]
    exact .inl ⟨_, _, _, rfl⟩
  · simp only [hc]
    rcases hs : npSeedOk (pyIntVal cfg.seed) with _ | _
    · simp only [hs, Bool.not_false, if_true]
      exact .inl ⟨_, _, _, rfl⟩
    · simp only [hs, Bool.not_true, Bool.false_eq_true, if_false]
      rcases hd : load_data env.inputPath env.dfile with m | df
      · simp only [hd]
        exact .inl ⟨_, _, _, rfl⟩
      · simp only [hd]
        rcases hw : env.successWriteError with _ | w
        · simp only [hw]
          exact .inr ⟨_, _, _, _, _, _, rfl⟩
        · simp only [hw]
          exact .inl ⟨_, _, _, rfl⟩

/-- All three required keys are present once no key is missing. -/
lemma hasKey_of_noMissing (d : List (String × PyValue))
    (h : (missingKeys d).isEmpty = true) :
    hasKey d "seed" = true ∧ hasKey d "window" = true ∧ hasKey d "version" = true := by
  have h0 : missingKeys d = [] := List.isEmpty_iff.mp h
  unfold missingKeys requiredKeys at h0
  rw [List.filter_eq_nil_iff] at h0
  refine ⟨?_, ?_, ?_⟩
  · have := h0 "seed" (by simp)
    simpa using this
  · have := h0 "window" (by simp)
    simpa using this
  · have := h0 "version" (by simp)
    simpa using this

/-- The signal series of the scenario data at window 3, as the code
computes it: the first two positions compare against NaN, positions 2
and 3 exceed their window means (3 > 2 and 10 > 5), positions 4 and 5
do not (1 < 14/3 and 1 < 4). -/
lemma signals_env0 : generate_signals close0 (Int.toNat 3) = [0, 0, 1, 1, 0, 0] := by
  show generate_signals close0 3 = _
  norm_num [generate_signals, close0, rollingMean, gtOpt, List.range_succ,
    List.filterMap_cons, List.filterMap_nil]

/-- Full evaluation of the scenario run: the mean of the signal series
is `2/6 = 1/3`, rounded to `0.3333`. -/
lemma main_env0_eval :
    main env0 =
      { exitCode := 0
        written := some (.success (.pyStr "v1") 6 (3333 / 10000) (.pyInt 42) 0)
        printed := .success (.pyStr "v1") 6 (3333 / 10000) (.pyInt 42) 0
        logs := ["Job started", "Config loaded", "Configuration verified",
          "Data loaded", "Rolling mean calculated", "Signals generated",
          "Metrics", "Job completed successfully"] } := by
  have hc : load_config env0.configPath env0.cfile = .ok cfg0 := rfl
  have hd : load_data env0.inputPath env0.dfile = .ok df0 := rfl
  rw [main_success env0 cfg0 df0 hc (by decide) hd rfl]
  have hval : round4 (seriesMean (generate_signals df0.close (pyIntVal cfg0.window).toNat))
      = 3333 / 10000 := by
    show round4 (seriesMean (generate_signals close0 (Int.toNat 3))) = _
    rw [signals_env0]
    norm_num [seriesMean, round4, roundHalfEven]
  rw [hval]
  rfl

/-- The spec-side rate of the scenario: two of the four defined
positions carry signal 1, so the rate over defined positions is
one half. -/
lemma signalRateSpec_env0 : signalRateSpec close0 3 = 1 / 2 := by
  norm_num [signalRateSpec, definedPos, close0, rollingMean, gtOpt, List.range_succ,
    List.filterMap_cons, List.filterMap_nil]

end Pipeline

/-! ## The claims -/

namespace Pipeline

/-- Claim C1, counterexample. The claim says the reported `value` is the
fraction of signal=1 rows over only the defined positions. On the
scenario data (`close = [1,2,3,10,1,1]`, window 3) the defined-positions
rate is `1/2` (two ones among four defined positions) and survives
rounding, yet the run reports `0.3333`: the code divides by all six
rows. -/
theorem c1_counterexample :
    reportValue (main env0) = some (3333 / 10000)
    ∧ signalRateSpec close0 3 = 1 / 2
    ∧ round4 (signalRateSpec close0 3) = 1 / 2
    ∧ (3333 / 10000 : ℚ) ≠ 1 / 2 := by
  refine ⟨?_, signalRateSpec_env0, ?_, by norm_num⟩
  · rw [reportValue, main_env0_eval]
  · rw [signalRateSpec_env0]
    norm_num [round4, roundHalfEven]

/-- Claim C1, amended. For every successful run, the reported `value`
is the rounded fraction of signal=1 rows over ALL rows: positions with
`i < window - 1` (and NaN positions) carry signal `0`, contributing
nothing to the numerator but still counting in the denominator. -/
theorem c1_rate_all_rows (env : Env) (cfg : Config) (df : DataFrame)
    (hc : load_config env.configPath env.cfile = .ok cfg)
    (hs : npSeedOk (pyIntVal cfg.seed) = true)
    (hd : load_data env.inputPath env.dfile = .ok df)
    (hw : env.successWriteError = none)
    (hlen : df.close.length = df.nrows) :
    reportValue (main env) =
      some (round4
        (((generate_signals df.close (pyIntVal cfg.window).toNat).count 1 : ℚ)
          / (df.nrows : ℚ)))
    ∧ ∀ i, i + 1 < (pyIntVal cfg.window).toNat →
        (generate_signals df.close (pyIntVal cfg.window).toNat).getD i 0 = 0 := by
  constructor
  · rw [reportValue, main_success env cfg df hc hs hd hw]
    have hmean : seriesMean (generate_signals df.close (pyIntVal cfg.window).toNat) =
        ((generate_signals df.close (pyIntVal cfg.window).toNat).count 1 : ℚ)
          / (df.nrows : ℚ) := by
      unfold seriesMean
      rw [sum_eq_count_one _ (generate_signals_le_one _ _),
        generate_signals_length, hlen]
    rw [hmean]
  · intro i hi
    exact generate_signals_getD_zero _ _ hi

/-- Witness for C1: the amended statement applied to the scenario
run. -/
theorem c1_witness :
    reportValue (main env0) =
      some (round4
        (((generate_signals df0.close (pyIntVal cfg0.window).toNat).count 1 : ℚ)
          / (df0.nrows : ℚ)))
    ∧ ∀ i, i + 1 < (pyIntVal cfg0.window).toNat →
        (generate_signals df0.close (pyIntVal cfg0.window).toNat).getD i 0 = 0 :=
  c1_rate_all_rows env0 cfg0 df0 rfl (by decide) rfl rfl rfl

/-- Claim C2, counterexample. On the spec scenario the run reports
`value = 0.3333`, not the claimed `0.25`. -/
theorem c2_counterexample :
    reportValue (main env0) = some (3333 / 10000)
    ∧ reportValue (main env0) ≠ some (1 / 4 : ℚ) := by
  have h : reportValue (main env0) = some (3333 / 10000) := by
    rw [reportValue, main_env0_eval]
  refine ⟨h, ?_⟩
  rw [h]
  intro hh
  have := Option.some_inj.mp hh
  norm_num at this

/-- Claim C2, amended. For config `{seed: 42, window: 3, version: "v1"}`
and `close = [1,2,3,10,1,1]`, the run succeeds (exit 0, success report)
with `rows_processed = 6` and `value = 0.3333` (signals `[0,0,1,1,0,0]`,
mean `2/6`). -/
theorem c2_scenario :
    (main env0).exitCode = 0
    ∧ (main env0).written =
        some (.success (.pyStr "v1") 6 (3333 / 10000) (.pyInt 42) 0) := by
  rw [main_env0_eval]
  exact ⟨rfl, rfl⟩

/-- Claim C3. For numeric (all-present) close data, positive window, and
any index with full history, the signal is `1` exactly when `close[i]`
strictly exceeds the arithmetic mean of the window
`[i - window + 1, i]`, else `0`. -/
theorem c3_signal_formula (close : List (Option ℚ)) (window i : ℕ)
    (hall : close.all Option.isSome = true) (hw : 0 < window)
    (h1 : window - 1 ≤ i) (h2 : i < close.length) :
    (generate_signals close window).getD i 0 =
      if ((List.range window).map
            (fun j => (close.getD (i + 1 - window + j) none).getD 0)).sum / (window : ℚ)
          < (close.getD i none).getD 0
      then 1 else 0 := by
  have h1' : window ≤ i + 1 := by omega
  rw [generate_signals_getD close window h2]
  rw [rollingMean_all_some close window i hall h1' h2]
  rw [getD_eq_some_getD (getD_isSome_of_all hall h2)]
  simp [gtOpt]

/-- Witness for C3: the window-mean rule at index 2 of the scenario
data. -/
theorem c3_witness :
    close0.all Option.isSome = true ∧ 0 < 3 ∧ 3 - 1 ≤ 2 ∧ 2 < close0.length ∧
    (generate_signals close0 3).getD 2 0 =
      (if ((List.range 3).map
            (fun j => (close0.getD (2 + 1 - 3 + j) none).getD 0)).sum / (3 : ℚ)
          < (close0.getD 2 none).getD 0
      then 1 else 0) :=
  ⟨by decide, by decide, by decide, by decide,
    c3_signal_formula close0 3 2 (by decide) (by decide) (by decide) (by decide)⟩

end Pipeline

namespace Pipeline

/-- Claim C4. For every config path and file state, validation either
succeeds, or fails with exactly the error message of the first violated
rule in the fixed order existence, parseability, top-level mapping
type, missing keys, then field types of seed, window, version. -/
theorem c4_first_violated_rule (p : String) (file : ConfigFile) :
    (∀ r, firstCfgViolation file = some r →
      load_config p file = .error (cfgRuleMsg p file r))
    ∧ (firstCfgViolation file = none → ∃ c, load_config p file = .ok c) := by
  obtain ⟨onDisk, parsed⟩ := file
  cases onDisk with
  | false =>
    exact ⟨fun r hr => by obtain rfl := Option.some_inj.mp hr; rfl,
           fun hnone => Option.noConfusion hnone⟩
  | true =>
    cases parsed with
    | error e =>
      exact ⟨fun r hr => by obtain rfl := Option.some_inj.mp hr; rfl,
             fun hnone => Option.noConfusion hnone⟩
    | ok v =>
      cases v
      case pyDict d =>
        cases hmiss : (missingKeys d).isEmpty with
        | false =>
          have hfv : firstCfgViolation ⟨true, .ok (.pyDict d)⟩ = some .missingK := by
            simp [firstCfgViolation, cfgRuleOrder, List.find?, cfgRuleViolated, hmiss]
          refine ⟨fun r hr => ?_, fun hnone => ?_⟩
          · rw [hfv] at hr
            obtain rfl := Option.some_inj.mp hr
            simp [load_config, hmiss, cfgRuleMsg]
          · rw [hfv] at hnone
            exact Option.noConfusion hnone
        | true =>
          obtain ⟨hk1, hk2, hk3⟩ := hasKey_of_noMissing d hmiss
          cases hseed : isInstInt (lookupKey d "seed") with
          | false =>
            have hfv : firstCfgViolation ⟨true, .ok (.pyDict d)⟩ = some .seedType := by
              simp [firstCfgViolation, cfgRuleOrder, List.find?, cfgRuleViolated,
                hmiss, hseed, hk1]
            refine ⟨fun r hr => ?_, fun hnone => ?_⟩
            · rw [hfv] at hr
              obtain rfl := Option.some_inj.mp hr
              simp [load_config, hmiss, hseed, cfgRuleMsg]
            · rw [hfv] at hnone
              exact Option.noConfusion hnone
          | true =>
            cases hwin : (!isInstInt (lookupKey d "window") ||
                decide (pyIntVal (lookupKey d "window") ≤ 0)) with
            | true =>
              have hfv : firstCfgViolation ⟨true, .ok (.pyDict d)⟩ = some .windowType := by
                simp [firstCfgViolation, cfgRuleOrder, List.find?, cfgRuleViolated,
                  hmiss, hseed, hk2, hwin]
              refine ⟨fun r hr => ?_, fun hnone => ?_⟩
              · rw [hfv] at hr
                obtain rfl := Option.some_inj.mp hr
                simp [load_config, hmiss, hseed, hwin, cfgRuleMsg]
              · rw [hfv] at hnone
                exact Option.noConfusion hnone
            | false =>
              cases hver : (!isInstStr (lookupKey d "version") ||
                  pyStrEmpty (lookupKey d "version")) with
              | true =>
                have hfv : firstCfgViolation ⟨true, .ok (.pyDict d)⟩ = some .versionType := by
                  simp [firstCfgViolation, cfgRuleOrder, List.find?, cfgRuleViolated,
                    hmiss, hseed, hwin, hk3, hver]
                refine ⟨fun r hr => ?_, fun hnone => ?_⟩
                · rw [hfv] at hr
                  obtain rfl := Option.some_inj.mp hr
                  simp [load_config, hmiss, hseed, hwin, hver, cfgRuleMsg]
                · rw [hfv] at hnone
                  exact Option.noConfusion hnone
              | false =>
                have hfv : firstCfgViolation ⟨true, .ok (.pyDict d)⟩ = none := by
                  simp [firstCfgViolation, cfgRuleOrder, List.find?, cfgRuleViolated,
                    hmiss, hseed, hwin, hver]
                refine ⟨fun r hr => ?_, fun _ => ?_⟩
                · rw [hfv] at hr
                  exact Option.noConfusion hr
                · refine ⟨⟨lookupKey d "seed", lookupKey d "window", lookupKey d "version"⟩, ?_⟩
                  simp [load_config, hmiss, hseed, hwin, hver]
      all_goals
        exact ⟨fun r hr => by obtain rfl := Option.some_inj.mp hr; rfl,
               fun hnone => Option.noConfusion hnone⟩

/-- Witness for C4: a mapping with only `seed` violates the missing-keys
rule first, and validation raises exactly that message. -/
theorem c4_witness :
    firstCfgViolation ⟨true, .ok (.pyDict dMissing)⟩ = some CfgRule.missingK ∧
    load_config "cfg.yaml" ⟨true, .ok (.pyDict dMissing)⟩ =
      .error (cfgRuleMsg "cfg.yaml" ⟨true, .ok (.pyDict dMissing)⟩ CfgRule.missingK) :=
  ⟨rfl, (c4_first_violated_rule "cfg.yaml" ⟨true, .ok (.pyDict dMissing)⟩).1
    CfgRule.missingK rfl⟩

/-- Claim C5. A parseable mapping lacking required keys fails with the
message listing exactly the missing keys, in sorted order. -/
theorem c5_missing_keys_sorted (p : String) (d : List (String × PyValue))
    (h : missingKeys d ≠ []) :
    load_config p ⟨true, .ok (.pyDict d)⟩ =
      .error ("Invalid configuration file structure: missing keys " ++
        renderKeyList (missingKeys d))
    ∧ (∀ k, k ∈ missingKeys d ↔ (k ∈ requiredKeys ∧ hasKey d k = false))
    ∧ (missingKeys d).Sorted (· < ·) := by
  have hmiss : (missingKeys d).isEmpty = false :=
    Bool.eq_false_iff.mpr (fun hh => h (List.isEmpty_iff.mp hh))
  refine ⟨?_, ?_, ?_⟩
  · simp [load_config, hmiss]
  · intro k
    simp [missingKeys, List.mem_filter, Bool.not_eq_true']
  · have hsorted : requiredKeys.Sorted (· < ·) := by
      simp [requiredKeys, List.sorted_cons]
      refine ⟨⟨?_, ?_⟩, ?_⟩ <;> decide
    exact hsorted.filter _

/-- Witness for C5: the mapping with only `seed` is missing `version`
and `window`, listed sorted. -/
theorem c5_witness :
    missingKeys dMissing ≠ [] ∧
    (load_config "cfg.yaml" ⟨true, .ok (.pyDict dMissing)⟩ =
        .error ("Invalid configuration file structure: missing keys " ++
          renderKeyList (missingKeys dMissing))
      ∧ (∀ k, k ∈ missingKeys dMissing ↔ (k ∈ requiredKeys ∧ hasKey dMissing k = false))
      ∧ (missingKeys dMissing).Sorted (· < ·)) :=
  ⟨by decide, c5_missing_keys_sorted "cfg.yaml" dMissing (by decide)⟩

end Pipeline

namespace Pipeline

/-- Claim C6. Data loading checks its failure conditions in the fixed
precedence existence, parse failure, emptiness, schema; a parse failure
and an empty input carry distinct error messages. -/
theorem c6_data_rule_order (p : String) (file : DataFile) :
    (∀ r, firstDataViolation file = some r →
      load_data p file = .error (dataRuleMsg p file r))
    ∧ (firstDataViolation file = none → ∃ df, load_data p file = .ok df)
    ∧ (∀ m, ("Invalid CSV file format: " ++ m) ≠ "Empty input file.") := by
  have hdist : ∀ m, ("Invalid CSV file format: " ++ m) ≠ "Empty input file." := by
    intro m hm
    have hl := congrArg String.length hm
    rw [String.length_append] at hl
    have h1 : ("Invalid CSV file format: " : String).length = 25 := rfl
    have h2 : ("Empty input file." : String).length = 17 := rfl
    omega
  refine ⟨?_, ?_, hdist⟩ <;>
  · obtain ⟨onDisk, parsed⟩ := file
    cases onDisk with
    | false =>
      first
      | exact fun r hr => by obtain rfl := Option.some_inj.mp hr; rfl
      | exact fun hnone => Option.noConfusion hnone
    | true =>
      cases parsed with
      | emptyData =>
        first
        | exact fun r hr => by obtain rfl := Option.some_inj.mp hr; rfl
        | exact fun hnone => Option.noConfusion hnone
      | parserError m =>
        first
        | exact fun r hr => by obtain rfl := Option.some_inj.mp hr; rfl
        | exact fun hnone => Option.noConfusion hnone
      | otherError m =>
        first
        | exact fun r hr => by obtain rfl := Option.some_inj.mp hr; rfl
        | exact fun hnone => Option.noConfusion hnone
      | ok df =>
        by_cases hn : df.nrows = 0
        · have hfv : firstDataViolation ⟨true, .ok df⟩ = some .emptiness := by
            simp [firstDataViolation, dataRuleOrder, List.find?, dataRuleViolated, hn]
          first
          | exact fun r hr => by
              rw [hfv] at hr
              obtain rfl := Option.some_inj.mp hr
              simp [load_data, hn, dataRuleMsg]
          | exact fun hnone => by rw [hfv] at hnone; exact Option.noConfusion hnone
        · by_cases hcol : "close" ∈ df.columns
          · have hfv : firstDataViolation ⟨true, .ok df⟩ = none := by
              simp [firstDataViolation, dataRuleOrder, List.find?, dataRuleViolated,
                hn, hcol]
            first
            | exact fun r hr => by rw [hfv] at hr; exact Option.noConfusion hr
            | exact fun _ => ⟨df, by simp [load_data, hn, hcol]⟩
          · have hfv : firstDataViolation ⟨true, .ok df⟩ = some .schema := by
              simp [firstDataViolation, dataRuleOrder, List.find?, dataRuleViolated,
                hn, hcol]
            first
            | exact fun r hr => by
                rw [hfv] at hr
                obtain rfl := Option.some_inj.mp hr
                simp [load_data, hn, hcol, dataRuleMsg]
            | exact fun hnone => by rw [hfv] at hnone; exact Option.noConfusion hnone

/-- Witness for C6: a `ParserError` file hits the parse-failure rule and
raises the CSV-format message. -/
theorem c6_witness :
    firstDataViolation dfileParseErr = some DataRule.parseFailure ∧
    load_data "data.csv" dfileParseErr =
      .error (dataRuleMsg "data.csv" dfileParseErr DataRule.parseFailure) :=
  ⟨rfl, (c6_data_rule_order "data.csv" dfileParseErr).1 DataRule.parseFailure rfl⟩

/-- Claim C7. Every run exits with 0 or 1; the exit status is 0 exactly
when a success report was written; and when the failure-report write
itself raises, the failure is logged and the exit status is still 1. -/
theorem c7_exit_codes (env : Env) :
    ((main env).exitCode = 0 ∨ (main env).exitCode = 1)
    ∧ ((main env).exitCode = 0 ↔
        ∃ v r val s lat, (main env).written = some (.success v r val s lat))
    ∧ (∀ w, env.errorWriteError = some w → (main env).exitCode ≠ 0 →
        (main env).exitCode = 1 ∧
          ("Failed to write error output JSON: " ++ w) ∈ (main env).logs) := by
  rcases main_shape env with ⟨v, m, lg, hm⟩ | ⟨v, r, val, s, lat, lg, hm⟩
  · rw [hm]
    refine ⟨.inr (reportFailure_exitCode ..), ?_, ?_⟩
    · constructor
      · intro h0
        have := reportFailure_exitCode env v m lg
        omega
      · rintro ⟨ver, rr, vv, ss, ll, hwr⟩
        exact absurd hwr (reportFailure_written env v m lg ver rr vv ss ll)
    · intro w hw _
      exact ⟨reportFailure_exitCode .., reportFailure_log env v m lg hw⟩
  · rw [hm]
    refine ⟨.inl rfl, ?_, ?_⟩
    · simp
    · intro w _ hne
      exact absurd rfl hne

/-- Witness for C7: a run with an absent config file and a raising
failure-report write still exits 1 and logs the secondary failure. -/
theorem c7_witness :
    (main envNoConfig).exitCode = 1 ∧
    ("Failed to write error output JSON: " ++ "disk full") ∈ (main envNoConfig).logs :=
  (c7_exit_codes envNoConfig).2.2 "disk full" rfl (by decide)

end Pipeline

namespace Pipeline

/-- Claim C8. Every successful run reports a `value` in `[0, 1]` that is
the four-decimal rounding of the signal rate, hence an integer multiple
of `1/10000`. -/
theorem c8_value_bounds (env : Env) (cfg : Config) (df : DataFrame)
    (hc : load_config env.configPath env.cfile = .ok cfg)
    (hs : npSeedOk (pyIntVal cfg.seed) = true)
    (hd : load_data env.inputPath env.dfile = .ok df)
    (hw : env.successWriteError = none) :
    ∃ val : ℚ,
      (main env).written = some (.success cfg.version df.nrows val cfg.seed env.latencyMs)
      ∧ val = round4 (seriesMean (generate_signals df.close (pyIntVal cfg.window).toNat))
      ∧ 0 ≤ val ∧ val ≤ 1 ∧ ∃ k : ℤ, val = (k : ℚ) / 10000 := by
  refine ⟨_, by rw [main_success env cfg df hc hs hd hw], rfl, ?_, ?_, ?_⟩
  · exact round4_nonneg (seriesMean_nonneg _)
  · exact round4_le_one (seriesMean_le_one _ (generate_signals_le_one _ _))
  · exact ⟨_, rfl⟩

/-- Witness for C8: the value bounds at the scenario run. -/
theorem c8_witness :
    ∃ val : ℚ,
      (main env0).written =
        some (.success cfg0.version df0.nrows val cfg0.seed env0.latencyMs)
      ∧ val = round4 (seriesMean (generate_signals df0.close (pyIntVal cfg0.window).toNat))
      ∧ 0 ≤ val ∧ val ≤ 1 ∧ ∃ k : ℤ, val = (k : ℚ) / 10000 :=
  c8_value_bounds env0 cfg0 df0 rfl (by decide) rfl rfl

/-- Claim C9. Validation accepts booleans where integers are required:
the config `{seed: true, window: true, version: "v1"}` passes, because
Python `isinstance(True, int)` holds and `True` is positive as an
integer. -/
theorem c9_bool_config_accepted :
    load_config "config.yaml" cfgBoolFile =
      .ok ⟨.pyBool true, .pyBool true, .pyStr "v1"⟩ := rfl

/-- Claim C10. With a non-empty all-numeric dataset and a window larger
than the row count, the run still succeeds and reports `value = 0`:
every position lacks full history, so every signal is 0. -/
theorem c10_big_window (env : Env) (cfg : Config) (df : DataFrame)
    (hc : load_config env.configPath env.cfile = .ok cfg)
    (hs : npSeedOk (pyIntVal cfg.seed) = true)
    (hd : load_data env.inputPath env.dfile = .ok df)
    (hw : env.successWriteError = none)
    (hall : df.close.all Option.isSome = true)
    (hlen : df.close.length = df.nrows)
    (hpos : 0 < df.nrows)
    (hbig : df.nrows < (pyIntVal cfg.window).toNat) :
    (main env).exitCode = 0 ∧ reportValue (main env) = some 0 := by
  have hzero : ∀ x ∈ generate_signals df.close (pyIntVal cfg.window).toNat, x = 0 := by
    intro x hx
    simp only [generate_signals, List.mem_map, List.mem_range] at hx
    obtain ⟨i, hi, rfl⟩ := hx
    have : rollingMean df.close (pyIntVal cfg.window).toNat i = none := by
      simp [rollingMean, show i + 1 < (pyIntVal cfg.window).toNat by omega]
    rw [this]
    cases df.close.getD i none <;> simp [gtOpt]
  have hsum : (generate_signals df.close (pyIntVal cfg.window).toNat).sum = 0 :=
    List.sum_eq_zero hzero
  have hmean : seriesMean (generate_signals df.close (pyIntVal cfg.window).toNat) = 0 := by
    unfold seriesMean
    rw [hsum]
    simp
  have hr4 : round4 (0 : ℚ) = 0 := by
    norm_num [round4, roundHalfEven]
  rw [main_success env cfg df hc hs hd hw, reportValue]
  refine ⟨rfl, ?_⟩
  rw [hmean, hr4]

/-- Witness for C10: one data row, window 9, still a success run with
zero rate. -/
theorem c10_witness :
    df1.nrows < (pyIntVal cfgBig.window).toNat ∧
    (main envBigWindow).exitCode = 0 ∧ reportValue (main envBigWindow) = some 0 :=
  ⟨by decide,
    c10_big_window envBigWindow cfgBig df1 rfl (by decide) rfl rfl (by decide) rfl
      (by decide) (by decide)⟩

end Pipeline
